import Mathlib

/-!
Verification development for the OSKAR radio-interferometer correlator core.

The definitions below are a shallow embedding of the C sources:
numeric data is modelled exactly (ℚ for the floating-point payloads, ℝ for
the trigonometric smearing model), machine status codes are `Int`, and the
type/location tags of the `oskar_Mem` container are `Int` tags as in the C
enum.  Functions that mutate through pointers are modelled as pure
functions returning the updated value together with the status code.
-/

/-- Memory location tag for host (CPU) memory.  The enum header
(`oskar_global.h`) is not part of the sampled sources; the tag values are
representative distinct integers, matching the C convention that the two
locations are distinct. -/
def OSKAR_CPU : Int := 0

/-- Memory location tag for accelerator (GPU) memory. -/
def OSKAR_GPU : Int := 1

/-- Element-type tag: single-precision real scalar. -/
def OSKAR_SINGLE : Int := 4

/-- Element-type tag: double-precision real scalar. -/
def OSKAR_DOUBLE : Int := 8

/-- Element-type tag: single-precision complex scalar. -/
def OSKAR_SINGLE_COMPLEX : Int := 36

/-- Element-type tag: double-precision complex scalar. -/
def OSKAR_DOUBLE_COMPLEX : Int := 40

/-- Element-type tag: single-precision complex 2x2 matrix. -/
def OSKAR_SINGLE_COMPLEX_MATRIX : Int := 100

/-- Element-type tag: double-precision complex 2x2 matrix. -/
def OSKAR_DOUBLE_COMPLEX_MATRIX : Int := 104

/-- Status code for success.  In the C code a status of `0` means no error. -/
def OSKAR_SUCCESS : Int := 0

/-- Error code for a null or invalid required argument.  The error enum
header is not among the sampled sources; the codes are modelled as
distinct nonzero integers (only distinctness is semantically relevant). -/
def OSKAR_ERR_INVALID_ARGUMENT : Int := -3

/-- Error code for a file that cannot be opened or read. -/
def OSKAR_ERR_FILE_IO : Int := -2

/-- Error code for a memory-allocation failure. -/
def OSKAR_ERR_MEMORY_ALLOC_FAILURE : Int := -6

/-- Error code for an element-type mismatch between two buffers. -/
def OSKAR_ERR_TYPE_MISMATCH : Int := -9

/-- Error code for a memory-location mismatch between two buffers. -/
def OSKAR_ERR_LOCATION_MISMATCH : Int := -10

/-- Error code for an unsupported element type. -/
def OSKAR_ERR_BAD_DATA_TYPE : Int := -13

/-- Error code for an unsupported memory location. -/
def OSKAR_ERR_BAD_LOCATION : Int := -14

/-- Error code set when a GPU path is requested but the library was
compiled without CUDA support. -/
def OSKAR_ERR_CUDA_NOT_AVAILABLE : Int := -16

/-- Modelled from the spec: `oskar_set_invalid_argument` (utility module,
not under src/) records the invalid-argument error in the status code,
the spec's `InvalidArgument` (null required handle) error. -/
def oskar_set_invalid_argument (_status : Int) : Int := OSKAR_ERR_INVALID_ARGUMENT

/-- Shallow model of the `oskar_Mem` typed buffer: an element-type tag, a
memory-location tag, and the raw numeric payload (floating-point values
modelled exactly as rationals). -/
structure OskarMem where
  mem_type : Int
  mem_location : Int
  data : List ℚ
deriving DecidableEq, Repr

/-- Accessor `oskar_mem_type`. -/
def oskar_mem_type (m : OskarMem) : Int := m.mem_type

/-- Accessor `oskar_mem_location`. -/
def oskar_mem_location (m : OskarMem) : Int := m.mem_location

/-- Predicate: the element type is one of the four complex shapes handled
by the auto-power dispatch switch in
`src/oskar/correlate/src/oskar_evaluate_auto_power.c` (the four `case`
labels of the switch). -/
def isAutoPowerSupportedType (t : Int) : Prop :=
  t = OSKAR_SINGLE_COMPLEX_MATRIX ∨ t = OSKAR_DOUBLE_COMPLEX_MATRIX ∨
    t = OSKAR_SINGLE_COMPLEX ∨ t = OSKAR_DOUBLE_COMPLEX

instance (t : Int) : Decidable (isAutoPowerSupportedType t) := by
  unfold isAutoPowerSupportedType
  infer_instance

/-- Shallow embedding of `oskar_evaluate_auto_power`
(src/oskar/correlate/src/oskar_evaluate_auto_power.c).  The four CPU
inner kernels (`oskar_evaluate_auto_power_f/_d/_scalar_f/_scalar_d`) and
the four CUDA kernels are not among the sampled sources, so the payload
transformation they perform is abstracted as the parameters `kern` and
`kern_cuda` (receiving the type tag, the source count, the Jones payload
and the previous output payload); every theorem below holds for all
kernel behaviours.  The `have_cuda` flag models the `OSKAR_HAVE_CUDA`
compile-time switch; `oskar_device_check_error` is modelled as reporting
no device error. -/
def oskar_evaluate_auto_power
    (kern kern_cuda : Int → Nat → List ℚ → List ℚ → List ℚ)
    (have_cuda : Bool) (num_sources : Nat)
    (jones out : OskarMem) (status : Int) : OskarMem × Int :=
  if status ≠ 0 then (out, status)
  else if oskar_mem_type jones ≠ oskar_mem_type out then
    (out, OSKAR_ERR_TYPE_MISMATCH)
  else if oskar_mem_location jones ≠ oskar_mem_location out then
    (out, OSKAR_ERR_LOCATION_MISMATCH)
  else if oskar_mem_location jones = OSKAR_CPU then
    if isAutoPowerSupportedType (oskar_mem_type jones) then
      ({ out with
          data := kern (oskar_mem_type jones) num_sources jones.data out.data },
        status)
    else (out, OSKAR_ERR_BAD_DATA_TYPE)
  else if oskar_mem_location jones = OSKAR_GPU then
    if have_cuda then
      if isAutoPowerSupportedType (oskar_mem_type jones) then
        ({ out with
            data := kern_cuda (oskar_mem_type jones) num_sources
              jones.data out.data },
          status)
      else (out, OSKAR_ERR_BAD_DATA_TYPE)
    else (out, OSKAR_ERR_CUDA_NOT_AVAILABLE)
  else (out, status)

/-- C1: on a call entered with a clean status, an element-type mismatch
between the Jones buffer and the output buffer sets the type-mismatch
error, a location mismatch (with matching types) sets the
location-mismatch error, and in both cases the function returns with the
output buffer unchanged. -/
theorem evaluate_auto_power_mismatch_errors
    (kern kern_cuda : Int → Nat → List ℚ → List ℚ → List ℚ)
    (have_cuda : Bool) (num_sources : Nat) (jones out : OskarMem) :
    (oskar_mem_type jones ≠ oskar_mem_type out →
      oskar_evaluate_auto_power kern kern_cuda have_cuda num_sources
        jones out 0 = (out, OSKAR_ERR_TYPE_MISMATCH)) ∧
    (oskar_mem_type jones = oskar_mem_type out →
      oskar_mem_location jones ≠ oskar_mem_location out →
      oskar_evaluate_auto_power kern kern_cuda have_cuda num_sources
        jones out 0 = (out, OSKAR_ERR_LOCATION_MISMATCH)) := by
  constructor
  · intro ht
    simp [oskar_evaluate_auto_power, ht]
  · intro ht hl
    simp [oskar_evaluate_auto_power, ht, hl]

/-- Sample kernel used only to instantiate the dispatch theorems at
concrete inputs. -/
def sampleKern : Int → Nat → List ℚ → List ℚ → List ℚ :=
  fun _ _ jones _ => jones

/-- Sample buffer: single-precision complex scalar on the host. -/
def memSC : OskarMem :=
  { mem_type := OSKAR_SINGLE_COMPLEX, mem_location := OSKAR_CPU,
    data := [1, 2] }

/-- Sample buffer: double-precision complex scalar on the host. -/
def memDC : OskarMem :=
  { mem_type := OSKAR_DOUBLE_COMPLEX, mem_location := OSKAR_CPU,
    data := [5, 7] }

/-- Sample buffer: single-precision complex scalar on the accelerator. -/
def memSCgpu : OskarMem :=
  { mem_type := OSKAR_SINGLE_COMPLEX, mem_location := OSKAR_GPU,
    data := [3, 4] }

/-- Sample buffer: double-precision real scalar on the host (a type the
auto-power dispatch does not support). -/
def memD : OskarMem :=
  { mem_type := OSKAR_DOUBLE, mem_location := OSKAR_CPU, data := [9] }

/-- Witness for C1 at concrete buffers. -/
theorem evaluate_auto_power_mismatch_errors_witness :
    oskar_evaluate_auto_power sampleKern sampleKern false 1 memSC memDC 0 =
      (memDC, OSKAR_ERR_TYPE_MISMATCH) ∧
    oskar_evaluate_auto_power sampleKern sampleKern false 1 memSC memSCgpu 0 =
      (memSCgpu, OSKAR_ERR_LOCATION_MISMATCH) :=
  ⟨(evaluate_auto_power_mismatch_errors sampleKern sampleKern false 1
      memSC memDC).1 (by decide),
    (evaluate_auto_power_mismatch_errors sampleKern sampleKern false 1
      memSC memSCgpu).2 (by decide) (by decide)⟩

/-- C10: the type check precedes the location check in the dispatch entry
point: when both the element types and the locations differ, the status
reported is the type-mismatch error, which is distinct from the
location-mismatch error. -/
theorem evaluate_auto_power_type_check_first
    (kern kern_cuda : Int → Nat → List ℚ → List ℚ → List ℚ)
    (have_cuda : Bool) (num_sources : Nat) (jones out : OskarMem)
    (ht : oskar_mem_type jones ≠ oskar_mem_type out)
    (_hl : oskar_mem_location jones ≠ oskar_mem_location out) :
    oskar_evaluate_auto_power kern kern_cuda have_cuda num_sources
        jones out 0 = (out, OSKAR_ERR_TYPE_MISMATCH) ∧
      OSKAR_ERR_TYPE_MISMATCH ≠ OSKAR_ERR_LOCATION_MISMATCH := by
  refine ⟨?_, by decide⟩
  simp [oskar_evaluate_auto_power, ht]

/-- Witness for C10 at concrete buffers differing in both type and
location. -/
theorem evaluate_auto_power_type_check_first_witness :
    oskar_evaluate_auto_power sampleKern sampleKern true 2 memDC memSCgpu 0 =
      (memSCgpu, OSKAR_ERR_TYPE_MISMATCH) ∧
    OSKAR_ERR_TYPE_MISMATCH ≠ OSKAR_ERR_LOCATION_MISMATCH :=
  evaluate_auto_power_type_check_first sampleKern sampleKern true 2
    memDC memSCgpu (by decide) (by decide)

/-- C3: with matching type and location tags, (a) on the CPU path an
element type outside the four supported complex shapes sets the
bad-data-type error, (b) likewise on the GPU path when CUDA is compiled
in, and (c) on the GPU path without CUDA compiled in the status is set to
the CUDA-not-available error; in every case the output buffer is
returned unchanged. -/
theorem evaluate_auto_power_bad_type_or_no_cuda
    (kern kern_cuda : Int → Nat → List ℚ → List ℚ → List ℚ)
    (have_cuda : Bool) (num_sources : Nat) (jones out : OskarMem)
    (ht : oskar_mem_type jones = oskar_mem_type out)
    (hl : oskar_mem_location jones = oskar_mem_location out) :
    (oskar_mem_location jones = OSKAR_CPU →
      ¬ isAutoPowerSupportedType (oskar_mem_type jones) →
      oskar_evaluate_auto_power kern kern_cuda have_cuda num_sources
        jones out 0 = (out, OSKAR_ERR_BAD_DATA_TYPE)) ∧
    (oskar_mem_location jones = OSKAR_GPU → have_cuda = true →
      ¬ isAutoPowerSupportedType (oskar_mem_type jones) →
      oskar_evaluate_auto_power kern kern_cuda have_cuda num_sources
        jones out 0 = (out, OSKAR_ERR_BAD_DATA_TYPE)) ∧
    (oskar_mem_location jones = OSKAR_GPU → have_cuda = false →
      oskar_evaluate_auto_power kern kern_cuda have_cuda num_sources
        jones out 0 = (out, OSKAR_ERR_CUDA_NOT_AVAILABLE)) := by
  refine ⟨?_, ?_, ?_⟩
  · intro hcpu hbad
    have hcpu' : oskar_mem_location out = OSKAR_CPU := hl.symm.trans hcpu
    have hbad' : ¬ isAutoPowerSupportedType (oskar_mem_type out) := by
      rw [← ht]; exact hbad
    simp [oskar_evaluate_auto_power, ht, hl, hcpu', hbad']
  · intro hgpu hc hbad
    have hgpu' : oskar_mem_location out = OSKAR_GPU := hl.symm.trans hgpu
    have hne : oskar_mem_location out ≠ OSKAR_CPU := by
      rw [hgpu']; decide
    have hbad' : ¬ isAutoPowerSupportedType (oskar_mem_type out) := by
      rw [← ht]; exact hbad
    simp [oskar_evaluate_auto_power, ht, hl, hgpu', hne, hc, hbad']
  · intro hgpu hc
    have hgpu' : oskar_mem_location out = OSKAR_GPU := hl.symm.trans hgpu
    have hne : oskar_mem_location out ≠ OSKAR_CPU := by
      rw [hgpu']; decide
    simp [oskar_evaluate_auto_power, ht, hl, hgpu', hne, hc]
    intro h
    exact absurd h (by decide)

/-- Sample buffer: double-precision real scalar on the accelerator. -/
def memDgpu : OskarMem :=
  { mem_type := OSKAR_DOUBLE, mem_location := OSKAR_GPU, data := [11] }

/-- Witness for C3 at concrete buffers: unsupported real type on the CPU,
unsupported real type on the GPU with CUDA, and a supported type on the
GPU without CUDA. -/
theorem evaluate_auto_power_bad_type_or_no_cuda_witness :
    (oskar_evaluate_auto_power sampleKern sampleKern true 1 memD memD 0 =
      (memD, OSKAR_ERR_BAD_DATA_TYPE)) ∧
    (oskar_evaluate_auto_power sampleKern sampleKern true 1
      memDgpu memDgpu 0 = (memDgpu, OSKAR_ERR_BAD_DATA_TYPE)) ∧
    (oskar_evaluate_auto_power sampleKern sampleKern false 1
      memSCgpu memSCgpu 0 = (memSCgpu, OSKAR_ERR_CUDA_NOT_AVAILABLE)) :=
  ⟨(evaluate_auto_power_bad_type_or_no_cuda sampleKern sampleKern true 1
      memD memD rfl rfl).1 (by decide) (by decide),
    (evaluate_auto_power_bad_type_or_no_cuda sampleKern sampleKern true 1
      memDgpu memDgpu rfl rfl).2.1 (by decide) rfl (by decide),
    (evaluate_auto_power_bad_type_or_no_cuda sampleKern sampleKern false 1
      memSCgpu memSCgpu rfl rfl).2.2 (by decide) rfl⟩

/-- Shallow model of the `oskar_Sky` source-list structure, with the
fields used by `oskar_sky_override_polarisation`
(src/sky/src/oskar_sky_override_polarisation.c): precision and location
tags, the source count, and the per-source coordinate and Stokes arrays
(floating-point values modelled exactly as rationals). -/
structure OskarSky where
  precision : Int
  sky_location : Int
  num_sources : Nat
  ra : List ℚ
  dec : List ℚ
  stokes_I : List ℚ
  stokes_Q : List ℚ
  stokes_U : List ℚ
  stokes_V : List ℚ
deriving DecidableEq, Repr

/-- Accessor `oskar_sky_precision`. -/
def oskar_sky_precision (s : OskarSky) : Int := s.precision

/-- Accessor `oskar_sky_mem_location`. -/
def oskar_sky_mem_location (s : OskarSky) : Int := s.sky_location

/-- Accessor `oskar_sky_num_sources`. -/
def oskar_sky_num_sources (s : OskarSky) : Nat := s.num_sources

/-- Body of one iteration of the polarisation-override loop in
`oskar_sky_override_polarisation`: given the two Gaussian deviates of the
iteration (the return value of `oskar_random_gaussian` and the value it
writes through its pointer argument) and the Stokes-I value, produce the
new Stokes (Q, U) pair.  The trigonometric functions `rcos`/`rsin` are
abstract parameters standing for the C library `cos`/`sin`. -/
def override_pol_entry (mean_pol_fraction std_pol_fraction
    mean_pol_angle_rad std_pol_angle_rad : ℚ) (rcos rsin : ℚ → ℚ)
    (g : ℚ × ℚ) (Ival : ℚ) : ℚ × ℚ :=
  let pol_angle0 := g.2 * std_pol_angle_rad + mean_pol_angle_rad
  let pol_fraction0 := g.1 * std_pol_fraction + mean_pol_fraction
  let pol_fraction1 := if pol_fraction0 > 1 then 1 else pol_fraction0
  let pol_fraction2 := if pol_fraction1 < 0 then 0 else pol_fraction1
  let pol_angle1 := pol_angle0 * 2
  (pol_fraction2 * Ival * rcos pol_angle1,
    pol_fraction2 * Ival * rsin pol_angle1)

/-- The `for` loop of `oskar_sky_override_polarisation` over source
indices `0 .. n-1`, updating the Stokes Q and U arrays in place; `gauss`
is the stream of Gaussian deviate pairs produced by the seeded random
generator. -/
def override_pol_loop (mean_pol_fraction std_pol_fraction
    mean_pol_angle_rad std_pol_angle_rad : ℚ) (rcos rsin : ℚ → ℚ)
    (gauss : Nat → ℚ × ℚ) (I_arr : List ℚ) :
    Nat → List ℚ × List ℚ → List ℚ × List ℚ
  | 0, qu => qu
  | n + 1, qu =>
    let qu' := override_pol_loop mean_pol_fraction std_pol_fraction
      mean_pol_angle_rad std_pol_angle_rad rcos rsin gauss I_arr n qu
    let e := override_pol_entry mean_pol_fraction std_pol_fraction
      mean_pol_angle_rad std_pol_angle_rad rcos rsin (gauss n)
      (I_arr.getD n 0)
    (qu'.1.set n e.1, qu'.2.set n e.2)

/-- Shallow embedding of `oskar_sky_override_polarisation`
(src/sky/src/oskar_sky_override_polarisation.c).  A null `sky` pointer is
modelled as `none`.  The seeded C `rand()` stream behind
`oskar_random_gaussian` is abstracted as the `gauss` parameter, and the C
`cos`/`sin` as `rcos`/`rsin`; the double- and single-precision branches
perform the same computation in this exact-arithmetic model, so they are
modelled by one branch guarded by the same type test as the C code. -/
def oskar_sky_override_polarisation (sky : Option OskarSky)
    (mean_pol_fraction std_pol_fraction mean_pol_angle_rad
      std_pol_angle_rad : ℚ) (_seed : Int) (gauss : Nat → ℚ × ℚ)
    (rcos rsin : ℚ → ℚ) (status : Int) : Option OskarSky × Int :=
  match sky with
  | none => (none, oskar_set_invalid_argument status)
  | some s =>
    if status ≠ 0 then (some s, status)
    else if mean_pol_fraction < 0 then (some s, status)
    else if oskar_sky_mem_location s = OSKAR_CPU then
      if oskar_sky_precision s = OSKAR_DOUBLE ∨
          oskar_sky_precision s = OSKAR_SINGLE then
        let qu := override_pol_loop mean_pol_fraction std_pol_fraction
          mean_pol_angle_rad std_pol_angle_rad rcos rsin gauss
          s.stokes_I (oskar_sky_num_sources s) (s.stokes_Q, s.stokes_U)
        (some { s with stokes_Q := qu.1, stokes_U := qu.2 }, status)
      else (some s, OSKAR_ERR_BAD_DATA_TYPE)
    else (some s, OSKAR_ERR_BAD_LOCATION)

/-- C9: when the mean polarisation fraction is strictly negative, the
polarisation override returns immediately: the sky model (every field)
is unchanged and the status code is returned exactly as it came in. -/
theorem sky_override_polarisation_negative_fraction_noop
    (s : OskarSky) (mean_pol_fraction std_pol_fraction mean_pol_angle_rad
      std_pol_angle_rad : ℚ) (seed : Int) (gauss : Nat → ℚ × ℚ)
    (rcos rsin : ℚ → ℚ) (status : Int)
    (hneg : mean_pol_fraction < 0) :
    oskar_sky_override_polarisation (some s) mean_pol_fraction
      std_pol_fraction mean_pol_angle_rad std_pol_angle_rad seed gauss
      rcos rsin status = (some s, status) := by
  unfold oskar_sky_override_polarisation
  by_cases h : status ≠ 0
  · simp [h]
  · simp [h, hneg]

/-- Sample sky model used to instantiate the override theorems. -/
def sampleSky : OskarSky :=
  { precision := OSKAR_DOUBLE, sky_location := OSKAR_CPU, num_sources := 2,
    ra := [1, 2], dec := [3, 4], stokes_I := [10, 20],
    stokes_Q := [0, 0], stokes_U := [0, 0], stokes_V := [0, 0] }

/-- Sample Gaussian-deviate stream. -/
def sampleGauss : Nat → ℚ × ℚ := fun n => ((n : ℚ), (n : ℚ) + 1)

/-- Sample stand-in for the C cosine (any function works for the
dispatch-level theorems). -/
def sampleCos : ℚ → ℚ := fun x => 1 - x

/-- Sample stand-in for the C sine. -/
def sampleSin : ℚ → ℚ := fun x => x

/-- Witness for C9: a concrete sky model with mean polarisation fraction
-1 is returned unchanged with the incoming (clean) status. -/
theorem sky_override_polarisation_negative_fraction_noop_witness :
    oskar_sky_override_polarisation (some sampleSky) (-1) 2 3 4 7
      sampleGauss sampleCos sampleSin 0 = (some sampleSky, 0) :=
  sky_override_polarisation_negative_fraction_noop sampleSky (-1) 2 3 4 7
    sampleGauss sampleCos sampleSin 0 (by decide)

/-- Shallow embedding of the entry checks of `oskar_mem_load_ascii`
(src/utility/src/oskar_mem_load_ascii.c).  A null `filename` pointer is
modelled by `filename_null`, a failing `fopen` by `open_ok = false`.
The remainder of the function (handle setup, the line loop and the final
resizes) depends on helpers that are not among the sampled sources
(`oskar_getline`, `oskar_string_to_array_d`, `oskar_mem_realloc`), so it
is abstracted as the `body` parameter, applied to the variadic array
arguments `mems`; the entry-check theorems below hold for every body.
The result triple is (arrays, status, returned row count). -/
def oskar_mem_load_ascii (filename_null : Bool) (num_mem : Nat)
    (status : Int) (open_ok : Bool) (mems : List OskarMem)
    (body : List OskarMem → List OskarMem × Int × Nat) :
    List OskarMem × Int × Nat :=
  if filename_null ∨ num_mem = 0 then
    (mems, oskar_set_invalid_argument status, 0)
  else if status ≠ 0 then (mems, status, 0)
  else if open_ok = false then (mems, OSKAR_ERR_FILE_IO, 0)
  else body mems

/-- Counterexample to C2: the ASCII loader's argument check precedes its
status pre-check, so a call with a null filename and a non-zero incoming
status (here 5) overwrites the status with the invalid-argument error
instead of leaving it untouched. -/
theorem load_ascii_nonzero_status_not_noop :
    oskar_mem_load_ascii true 1 5 true [memSC] (fun m => (m, 0, 0)) =
      ([memSC], OSKAR_ERR_INVALID_ARGUMENT, 0) ∧
    OSKAR_ERR_INVALID_ARGUMENT ≠ 5 := by
  constructor
  · rfl
  · decide

/-- C2 (amended): provided the required arguments are valid (non-null
handles, non-zero array count), a non-zero incoming status makes each of
the three entry points a no-op that changes neither its outputs nor the
status value; a null required handle instead overwrites the status with
the invalid-argument error. -/
theorem status_precheck_noop_when_args_valid
    (kern kern_cuda : Int → Nat → List ℚ → List ℚ → List ℚ)
    (have_cuda : Bool) (num_sources : Nat) (jones out : OskarMem)
    (num_mem : Nat) (open_ok : Bool) (mems : List OskarMem)
    (body : List OskarMem → List OskarMem × Int × Nat)
    (s : OskarSky) (mean_pol_fraction std_pol_fraction mean_pol_angle_rad
      std_pol_angle_rad : ℚ) (seed : Int) (gauss : Nat → ℚ × ℚ)
    (rcos rsin : ℚ → ℚ) (status : Int) (hs : status ≠ 0) :
    oskar_evaluate_auto_power kern kern_cuda have_cuda num_sources
        jones out status = (out, status) ∧
    (num_mem ≠ 0 →
      oskar_mem_load_ascii false num_mem status open_ok mems body =
        (mems, status, 0)) ∧
    oskar_sky_override_polarisation (some s) mean_pol_fraction
        std_pol_fraction mean_pol_angle_rad std_pol_angle_rad seed gauss
        rcos rsin status = (some s, status) := by
  refine ⟨?_, ?_, ?_⟩
  · simp [oskar_evaluate_auto_power, hs]
  · intro hm
    simp [oskar_mem_load_ascii, hm, hs]
  · simp [oskar_sky_override_polarisation, hs]

/-- Witness for the amended C2 at concrete inputs with incoming status 5. -/
theorem status_precheck_noop_when_args_valid_witness :
    oskar_evaluate_auto_power sampleKern sampleKern true 1 memSC memSC 5 =
      (memSC, 5) ∧
    oskar_mem_load_ascii false 2 5 true [memSC] (fun m => (m, 0, 0)) =
      ([memSC], 5, 0) ∧
    oskar_sky_override_polarisation (some sampleSky) 1 2 3 4 7 sampleGauss
      sampleCos sampleSin 5 = (some sampleSky, 5) := by
  have h := status_precheck_noop_when_args_valid sampleKern sampleKern
    true 1 memSC memSC 2 true [memSC] (fun m => (m, 0, 0)) sampleSky
    1 2 3 4 7 sampleGauss sampleCos sampleSin 5 (by decide)
  exact ⟨h.1, h.2.1 (by decide), h.2.2⟩

/-- Canonical enumeration of station pairs, as documented for the
station-to-baseline conversion and the correlator: for i = 0..N-2, for
j = i+1..N-1, the pair (i, j).  The inner index j is written as
i + 1 + k with k < N - 1 - i. -/
def baselinePairs (N : Nat) : List (Nat × Nat) :=
  (List.range (N - 1)).flatMap (fun i =>
    (List.range (N - 1 - i)).map (fun k => (i, i + 1 + k)))

/-- Membership in the canonical enumeration is exactly the set of ordered
station pairs i < j < N. -/
theorem mem_baselinePairs (N : Nat) (p : Nat × Nat) :
    p ∈ baselinePairs N ↔ p.1 < p.2 ∧ p.2 < N := by
  obtain ⟨a, b⟩ := p
  simp only [baselinePairs, List.mem_flatMap, List.mem_map, List.mem_range]
  constructor
  · rintro ⟨i, hi, k, hk, hik⟩
    rw [Prod.mk.injEq] at hik
    omega
  · rintro ⟨hab, hbN⟩
    exact ⟨a, by omega, b - a - 1, by omega, by rw [Prod.mk.injEq]; omega⟩

/-- Arithmetic helper: twice the sum m + (m-1) + ... + 1 is m(m+1). -/
theorem sum_range_sub_mul_two (m : Nat) :
    (((List.range m).map (fun i => m - i)).sum) * 2 = m * (m + 1) := by
  induction m with
  | zero => rfl
  | succ n ih =>
    rw [List.range_succ_eq_map]
    simp only [List.map_cons, List.map_map, List.sum_cons, Nat.sub_zero]
    have hcomp : ((fun i => n + 1 - i) ∘ Nat.succ) = fun i => n - i := by
      funext i
      simp only [Function.comp_apply, Nat.succ_eq_add_one]
      omega
    rw [hcomp, add_mul, ih]
    ring

/-- The canonical enumeration has exactly N(N-1)/2 entries. -/
theorem length_baselinePairs (N : Nat) :
    (baselinePairs N).length = N * (N - 1) / 2 := by
  have h2 : (baselinePairs N).length * 2 = N * (N - 1) := by
    rw [baselinePairs, List.length_flatMap]
    simp only [Function.comp_def, List.length_map, List.length_range]
    cases N with
    | zero => rfl
    | succ M =>
      have := sum_range_sub_mul_two M
      simpa [Nat.succ_sub_one, Nat.mul_comm] using this
  rw [← h2, Nat.mul_div_cancel _ (by norm_num : (0 : Nat) < 2)]

/-- The canonical enumeration lists each station pair exactly once. -/
theorem nodup_baselinePairs (N : Nat) : (baselinePairs N).Nodup := by
  rw [baselinePairs, List.nodup_flatMap]
  constructor
  · intro i _
    refine List.Nodup.map ?_ (List.nodup_range _)
    intro a b hab
    rw [Prod.mk.injEq] at hab
    omega
  · refine List.Pairwise.imp ?_ (List.nodup_range (N - 1))
    intro a b hab x hxa hxb
    simp only [List.mem_map, List.mem_range] at hxa hxb
    obtain ⟨k1, _, hk1⟩ := hxa
    obtain ⟨k2, _, hk2⟩ := hxb
    apply hab
    rw [← hk1] at hk2
    rw [Prod.mk.injEq] at hk2
    exact hk2.1.symm

/-- Dimension fields computed by `oskar_vis_create`
(src/interferometry/src/oskar_vis_create.c, lines 76-83): the baseline
count and the derived amplitude and coordinate array lengths. -/
structure OskarVisDims where
  num_stations : Nat
  num_channels : Nat
  num_times : Nat
  num_baselines : Nat
  num_amps : Nat
  num_coords : Nat
deriving DecidableEq, Repr

/-- Shallow embedding of the dimension computation of `oskar_vis_create`:
`num_baselines = num_stations * (num_stations - 1) / 2`, the amplitude
array holds `num_channels * num_times * num_baselines` elements and each
baseline coordinate array holds `num_times * num_baselines` elements. -/
def oskar_vis_create_dims (num_channels num_times num_stations : Nat) :
    OskarVisDims :=
  { num_stations := num_stations
    num_channels := num_channels
    num_times := num_times
    num_baselines := num_stations * (num_stations - 1) / 2
    num_amps := num_channels * num_times *
      (num_stations * (num_stations - 1) / 2)
    num_coords := num_times * (num_stations * (num_stations - 1) / 2) }

/-- Modelled from the spec: the body of
`oskar_convert_station_uvw_to_baseline_uvw_f/_d` is not among the sampled
sources (only its header,
src/oskar/convert/oskar_convert_station_uvw_to_baseline_uvw.h); per the
spec, "baseline (u,v,w) for station pair (i,j), i<j, equals station_i
minus station_j", written in the canonical enumeration order into output
arrays of length N(N-1)/2. -/
def oskar_convert_station_uvw_to_baseline_uvw (N : Nat)
    (u v w : Nat → ℚ) : List (ℚ × ℚ × ℚ) :=
  (baselinePairs N).map (fun p =>
    (u p.1 - u p.2, v p.1 - v p.2, w p.1 - w p.2))

/-- Canonical baseline index of the station pair (i, j): its position in
the canonical enumeration. -/
def baselineIdx (N i j : Nat) : Nat :=
  (baselinePairs N).indexOf (i, j)

/-- Helper: looking a list up at the position returned by `List.indexOf`
yields the sought element, for any lawful boolean equality. -/
theorem getElem?_indexOf_beq {α : Type} [BEq α] [LawfulBEq α] {a : α}
    {l : List α} (h : a ∈ l) : l[List.indexOf a l]? = some a := by
  induction l with
  | nil => cases h
  | cons b t ih =>
    rw [List.indexOf_cons]
    by_cases hb : (b == a) = true
    · simp [hb, eq_of_beq hb]
    · simp only [hb, cond_false]
      rw [List.getElem?_cons_succ]
      apply ih
      rcases List.mem_cons.mp h with h1 | h2
      · exact absurd (by simp [h1]) hb
      · exact h2

/-- C4: for N ≥ 1 stations the baseline count is N(N-1)/2; the canonical
enumeration is duplicate-free, enumerates exactly the pairs i < j < N
(so position-indexing is a bijection onto {0,...,N(N-1)/2 - 1}), the
visibility structure's baseline dimension uses this count, and the
pre-sized baseline coordinate arrays have exactly this length. -/
theorem baseline_count_and_enumeration_bijection
    (N num_channels num_times : Nat) (_hN : 1 ≤ N) :
    (baselinePairs N).length = N * (N - 1) / 2 ∧
    (baselinePairs N).Nodup ∧
    (∀ p : Nat × Nat, p ∈ baselinePairs N ↔ p.1 < p.2 ∧ p.2 < N) ∧
    Function.Injective
      (fun k : Fin (baselinePairs N).length => (baselinePairs N).get k) ∧
    (oskar_vis_create_dims num_channels num_times N).num_baselines =
      N * (N - 1) / 2 ∧
    (∀ u v w : Nat → ℚ,
      (oskar_convert_station_uvw_to_baseline_uvw N u v w).length =
        N * (N - 1) / 2) := by
  refine ⟨length_baselinePairs N, nodup_baselinePairs N,
    mem_baselinePairs N, ?_, rfl, ?_⟩
  · exact List.nodup_iff_injective_get.mp (nodup_baselinePairs N)
  · intro u v w
    rw [oskar_convert_station_uvw_to_baseline_uvw, List.length_map]
    exact length_baselinePairs N

/-- Witness for C4 at N = 4 stations (2 channels, 3 times). -/
theorem baseline_count_and_enumeration_bijection_witness :
    (baselinePairs 4).length = 4 * (4 - 1) / 2 ∧
    (baselinePairs 4).Nodup ∧
    (∀ p : Nat × Nat, p ∈ baselinePairs 4 ↔ p.1 < p.2 ∧ p.2 < 4) ∧
    Function.Injective
      (fun k : Fin (baselinePairs 4).length => (baselinePairs 4).get k) ∧
    (oskar_vis_create_dims 2 3 4).num_baselines = 4 * (4 - 1) / 2 ∧
    (∀ u v w : Nat → ℚ,
      (oskar_convert_station_uvw_to_baseline_uvw 4 u v w).length =
        4 * (4 - 1) / 2) :=
  baseline_count_and_enumeration_bijection 4 2 3 (by decide)

/-- C5: for every station pair (i, j) with i < j < N, the entry of the
station-to-baseline conversion at the pair's canonical baseline index is
the coordinate difference station_i minus station_j. -/
theorem baseline_uvw_is_station_difference (N i j : Nat)
    (u v w : Nat → ℚ) (hij : i < j) (hjN : j < N) :
    (oskar_convert_station_uvw_to_baseline_uvw N u v w)[baselineIdx N i j]? =
      some (u i - u j, v i - v j, w i - w j) := by
  have hmem : (i, j) ∈ baselinePairs N :=
    (mem_baselinePairs N (i, j)).mpr ⟨hij, hjN⟩
  rw [oskar_convert_station_uvw_to_baseline_uvw, baselineIdx,
    List.getElem?_map, getElem?_indexOf_beq hmem]
  rfl

/-- Sample station u-coordinates. -/
def sampleU : Nat → ℚ := fun n => (n : ℚ) * 100

/-- Sample station v-coordinates. -/
def sampleV : Nat → ℚ := fun n => (n : ℚ) * 10 + 1

/-- Sample station w-coordinates. -/
def sampleW : Nat → ℚ := fun n => (n : ℚ) - 5

/-- Witness for C5 at N = 3, pair (0, 2). -/
theorem baseline_uvw_is_station_difference_witness :
    (oskar_convert_station_uvw_to_baseline_uvw 3 sampleU sampleV
        sampleW)[baselineIdx 3 0 2]? =
      some (sampleU 0 - sampleU 2, sampleV 0 - sampleV 2,
        sampleW 0 - sampleW 2) :=
  baseline_uvw_is_station_difference 3 0 2 sampleU sampleV sampleW
    (by decide) (by decide)

/-- Modelled from the spec: the smearing kernels of the correlator
(SmearingModel) are not among the sampled sources; per the spec the
attenuation is a sinc of its argument with sinc(0) = 1 by convention
(bandwidth smearing: sinc of channel bandwidth times delay;
time-average smearing: sinc of integration time times fringe rate). -/
noncomputable def oskar_sinc (x : ℝ) : ℝ :=
  if x = 0 then 1 else Real.sin x / x

/-- Modelled from the spec: the combined per-baseline per-channel
smearing factor, the product of the bandwidth-smearing and time-average
attenuations, each multiplied elementwise into the correlated value. -/
noncomputable def smearing_attenuation (bw_delay t_fringe : ℝ) : ℝ :=
  oskar_sinc bw_delay * oskar_sinc t_fringe

/-- Helper: the sine of 4 radians is negative (4 lies between pi and
2 pi). -/
theorem sin_four_neg : Real.sin 4 < 0 := by
  have h1 : (4 : ℝ) - 2 * Real.pi < 0 := by
    nlinarith [Real.pi_gt_three]
  have h2 : -Real.pi < (4 : ℝ) - 2 * Real.pi := by
    nlinarith [Real.pi_lt_d2]
  have h3 : Real.sin (4 - 2 * Real.pi) < 0 :=
    Real.sin_neg_of_neg_of_neg_pi_lt h1 h2
  have h4 := Real.sin_add_two_pi (4 - 2 * Real.pi)
  rw [sub_add_cancel] at h4
  rw [h4]
  exact h3

/-- Counterexample to C6: the smearing attenuation is negative at
bandwidth-delay product 4 (with time-fringe product 0), so it does not
lie in [0,1]; and it is strictly larger at the larger argument 2*pi than
at 4, so it is not monotonically non-increasing in the product's
absolute value. -/
theorem smearing_attenuation_negative_and_not_monotone :
    smearing_attenuation 4 0 < 0 ∧
    |(4 : ℝ)| ≤ |2 * Real.pi| ∧
    smearing_attenuation 4 0 < smearing_attenuation (2 * Real.pi) 0 := by
  have h2pi_pos : (0 : ℝ) < 2 * Real.pi := by positivity
  have h4val : smearing_attenuation 4 0 = Real.sin 4 / 4 := by
    rw [smearing_attenuation, oskar_sinc, oskar_sinc]
    rw [if_neg (by norm_num : (4 : ℝ) ≠ 0), if_pos rfl, mul_one]
  have h4neg : smearing_attenuation 4 0 < 0 := by
    rw [h4val]
    exact div_neg_of_neg_of_pos sin_four_neg (by norm_num)
  have h2pival : smearing_attenuation (2 * Real.pi) 0 = 0 := by
    rw [smearing_attenuation, oskar_sinc, oskar_sinc]
    rw [if_neg (ne_of_gt h2pi_pos), if_pos rfl, mul_one,
      Real.sin_two_pi, zero_div]
  refine ⟨h4neg, ?_, ?_⟩
  · rw [abs_of_pos (by norm_num : (0 : ℝ) < 4), abs_of_pos h2pi_pos]
    nlinarith [Real.pi_gt_three]
  · rw [h2pival]
    exact h4neg

/-- Helper: the sinc attenuation never exceeds 1 in absolute value. -/
theorem abs_oskar_sinc_le_one (x : ℝ) : |oskar_sinc x| ≤ 1 := by
  rw [oskar_sinc]
  by_cases hx : x = 0
  · rw [if_pos hx]
    norm_num
  · rw [if_neg hx, abs_div]
    exact div_le_one_of_le₀ Real.abs_sin_le_abs (abs_nonneg x)

/-- C6 (amended): the smearing attenuation is bounded in [-1, 1] for all
inputs, and equals 1 when both the bandwidth-delay product and the
integration-time-fringe-rate product are 0.  (The original [0,1] bound
and the monotonicity in the absolute products fail: see the
counterexample.) -/
theorem smearing_attenuation_bounded_and_one_at_zero :
    (∀ bw_delay t_fringe : ℝ,
      -1 ≤ smearing_attenuation bw_delay t_fringe ∧
        smearing_attenuation bw_delay t_fringe ≤ 1) ∧
    smearing_attenuation 0 0 = 1 := by
  constructor
  · intro b t
    have habs : |smearing_attenuation b t| ≤ 1 := by
      rw [smearing_attenuation, abs_mul]
      exact mul_le_one₀ (abs_oskar_sinc_le_one b) (abs_nonneg _)
        (abs_oskar_sinc_le_one t)
    exact ⟨(abs_le.mp habs).1, (abs_le.mp habs).2⟩
  · rw [smearing_attenuation, oskar_sinc, if_pos rfl, one_mul]

/-- Complex multiplication on exact (re, im) pairs. -/
def cmul (a b : ℚ × ℚ) : ℚ × ℚ :=
  (a.1 * b.1 - a.2 * b.2, a.1 * b.2 + a.2 * b.1)

/-- Complex conjugation on (re, im) pairs. -/
def cconj (a : ℚ × ℚ) : ℚ × ℚ := (a.1, -a.2)

/-- Componentwise complex addition (the correlator's accumulate). -/
def cadd (a b : ℚ × ℚ) : ℚ × ℚ := (a.1 + b.1, a.2 + b.2)

/-- Scaling of a complex value by a real smearing factor. -/
def cscale (f : ℚ) (a : ℚ × ℚ) : ℚ × ℚ := (f * a.1, f * a.2)

/-- Modelled from the spec: the cross-correlation inner loops of
CorrelatorEngine are not among the sampled sources; per the spec, for
each station pair (i, j) in canonical order the engine initializes a
zero accumulator and accumulates, over sources s in list order, the
smearing-scaled product Jones(i,s) * conj(Jones(j,s)) (scalar case; the
2x2 case has the same loop structure), writing the sum at the pair's
canonical baseline index.  `smear` is the per-(baseline, source)
attenuation factor; arithmetic is exact, so the spec's
"within floating-point tolerance" becomes equality. -/
def oskar_correlate {S : Type} (N : Nat) (jones : Nat → S → ℚ × ℚ)
    (smear : Nat → Nat → S → ℚ) (sources : List S) : List (ℚ × ℚ) :=
  (baselinePairs N).map (fun p =>
    sources.foldl (fun acc s =>
      cadd acc (cscale (smear p.1 p.2 s)
        (cmul (jones p.1 s) (cconj (jones p.2 s))))) (0, 0))

/-- Helper: adding the zero pair on the left is the identity. -/
theorem cadd_zero_left (x : ℚ × ℚ) : cadd (0, 0) x = x := by
  cases x
  simp [cadd]

/-- Helper: complex addition is associative. -/
theorem cadd_assoc (x y z : ℚ × ℚ) :
    cadd (cadd x y) z = cadd x (cadd y z) := by
  cases x
  cases y
  cases z
  simp [cadd, add_assoc]

/-- Helper: an accumulate fold from an arbitrary initial value is the
initial value plus the fold from zero. -/
theorem foldl_cadd_shift {S : Type} (g : S → ℚ × ℚ) (l : List S)
    (init : ℚ × ℚ) :
    l.foldl (fun acc s => cadd acc (g s)) init =
      cadd init (l.foldl (fun acc s => cadd acc (g s)) (0, 0)) := by
  induction l generalizing init with
  | nil =>
    cases init
    simp [cadd]
  | cons s t ih =>
    simp only [List.foldl_cons]
    rw [ih (cadd init (g s)), ih (cadd (0, 0) (g s)),
      cadd_zero_left, cadd_assoc]

/-- Helper: the accumulate fold over an appended source list is the
complex sum of the folds over the two parts. -/
theorem foldl_cadd_append {S : Type} (g : S → ℚ × ℚ) (A B : List S) :
    (A ++ B).foldl (fun acc s => cadd acc (g s)) (0, 0) =
      cadd (A.foldl (fun acc s => cadd acc (g s)) (0, 0))
        (B.foldl (fun acc s => cadd acc (g s)) (0, 0)) := by
  rw [List.foldl_append]
  exact foldl_cadd_shift g B _

/-- C7: correlating the union of two disjoint source lists gives, for
every baseline, exactly the complex sum of the visibilities obtained by
correlating each list alone (exact arithmetic, so the floating-point
tolerance of the claim becomes equality). -/
theorem correlate_additive_in_sources {S : Type} (N : Nat)
    (jones : Nat → S → ℚ × ℚ) (smear : Nat → Nat → S → ℚ)
    (A B : List S) (_hdisj : A.Disjoint B) :
    oskar_correlate N jones smear (A ++ B) =
      List.zipWith cadd (oskar_correlate N jones smear A)
        (oskar_correlate N jones smear B) := by
  rw [oskar_correlate, oskar_correlate, oskar_correlate]
  generalize baselinePairs N = l
  induction l with
  | nil => rfl
  | cons p l ih =>
    simp only [List.map_cons, List.zipWith_cons_cons, ih]
    rw [foldl_cadd_append]

/-- Sample per-source Jones response for the C7 witness. -/
def sampleJones : Nat → Nat → ℚ × ℚ :=
  fun i s => ((i : ℚ) + 1, (s : ℚ))

/-- Sample smearing factor for the C7 witness. -/
def sampleSmear : Nat → Nat → Nat → ℚ :=
  fun i j s => 1 - (i : ℚ) / ((j : ℚ) + (s : ℚ) + 1)

/-- Witness for C7: two disjoint one-source lists over 3 stations. -/
theorem correlate_additive_in_sources_witness :
    oskar_correlate 3 sampleJones sampleSmear ([0] ++ [1]) =
      List.zipWith cadd (oskar_correlate 3 sampleJones sampleSmear [0])
        (oskar_correlate 3 sampleJones sampleSmear [1]) :=
  correlate_additive_in_sources 3 sampleJones sampleSmear [0] [1]
    (by intro a ha hb; simp at ha hb; omega)

/-- Modelled from the spec: `oskar_mem_realloc` (the TypedBuffer resize;
implementation not among the sampled sources, used by the ASCII loader
and documented by src/oskar/sky/oskar_sky_resize.h) "preserves prefix,
zero-fills tail, reallocates if needed": the payload resized to n
elements keeps the first min(old, n) values and holds zeros from the old
length up to n. -/
def oskar_mem_realloc (data : List ℚ) (n : Nat) : List ℚ :=
  data.take n ++ List.replicate (n - data.length) 0

/-- Modelled from the spec: `oskar_sky_resize`
(src/oskar/sky/oskar_sky_resize.h; implementation not sampled)
reallocates each per-source array of the sky model to the new source
count, "preserving the existing contents". -/
def oskar_sky_resize (s : OskarSky) (num : Nat) : OskarSky :=
  { s with
    num_sources := num
    ra := oskar_mem_realloc s.ra num
    dec := oskar_mem_realloc s.dec num
    stokes_I := oskar_mem_realloc s.stokes_I num
    stokes_Q := oskar_mem_realloc s.stokes_Q num
    stokes_U := oskar_mem_realloc s.stokes_U num
    stokes_V := oskar_mem_realloc s.stokes_V num }

/-- C8: resizing a buffer to a new length keeps the first
min(old length, new length) elements unchanged, fills every position
from the old length up to the new length with zero, and produces a
buffer of exactly the new length. -/
theorem mem_realloc_keeps_head_and_zero_fills
    (data : List ℚ) (n k : Nat) :
    (k < min data.length n →
      (oskar_mem_realloc data n)[k]? = data[k]?) ∧
    (data.length ≤ k → k < n →
      (oskar_mem_realloc data n)[k]? = some 0) ∧
    (oskar_mem_realloc data n).length = n := by
  refine ⟨?_, ?_, ?_⟩
  · intro hk
    rw [oskar_mem_realloc]
    rw [List.getElem?_append_left (by simp; omega)]
    rw [List.getElem?_take]
    simp only [if_pos (by omega : k < n)]
  · intro hlen hkn
    rw [oskar_mem_realloc]
    rw [List.getElem?_append_right (by simp; omega)]
    rw [List.getElem?_replicate]
    simp only [List.length_take]
    rw [if_pos (by omega)]
  · rw [oskar_mem_realloc]
    simp only [List.length_append, List.length_take, List.length_replicate]
    omega

/-- Witness for C8: resizing the 2-element buffer [3, 4] to length 5
keeps index 1, zeroes index 3, and yields length 5. -/
theorem mem_realloc_keeps_head_and_zero_fills_witness :
    (oskar_mem_realloc [3, 4] 5)[1]? = [(3 : ℚ), 4][1]? ∧
    (oskar_mem_realloc [3, 4] 5)[3]? = some 0 ∧
    (oskar_mem_realloc [3, 4] 5).length = 5 :=
  ⟨(mem_realloc_keeps_head_and_zero_fills [3, 4] 5 1).1 (by decide),
    (mem_realloc_keeps_head_and_zero_fills [3, 4] 5 3).2.1 (by decide)
      (by decide),
    (mem_realloc_keeps_head_and_zero_fills [3, 4] 5 3).2.2⟩
